import Mathlib

/-!
Verification of the Twin-Talk backend (src/app.py), a Flask application with
two POST handlers:

* `/transcribe_and_summarize` — resolves the user text from a form
  (`text_input` or an uploaded `audio_file` transcribed upstream), selects one
  of two fixed prompts by the `mode` form field, issues one completion call,
  and extracts the embedded JSON object from the raw completion text;
* `/tts` — validates the request text (stripped, non-empty, at most 4000
  characters), issues a speech-synthesis call with a `TypeError` fallback, and
  stages the returned audio bytes in a temporary file handed to the response.

The upstream OpenAI calls, the JSON parser (`json.loads`) and the raw audio
bytes are external collaborators; they enter the model as explicit parameters
(`Upstream`, `TtsUpstream`, `jsonLoads`).  Everything else — branching,
validation order, error mapping, the regex-based JSON extraction, and the
call/temp-file traces — is translated directly from src/app.py.
-/

/-- Python `str.strip` whitespace test, restricted to the ASCII whitespace
characters (space, tab, newline, carriage return, vertical tab, form feed)
that `str.strip()` removes. -/
def isPySpace (c : Char) : Bool :=
  c = ' ' || c = '\t' || c = '\n' || c = '\r' || c = '\x0b' || c = '\x0c'

/-- Core of Python `str.strip()` on a character list: drop leading whitespace,
then drop trailing whitespace (via reverse). -/
def stripList (l : List Char) : List Char :=
  ((l.dropWhile isPySpace).reverse.dropWhile isPySpace).reverse

/-- Python `s.strip()`. -/
def pyStrip (s : String) : String :=
  String.mk (stripList s.data)

/-- The character `\x7b` (opening curly brace), as matched by the regex
`r"\x7b.*\x7d"` in `_extract_json` (src/app.py line 210). -/
def lbrace : Char := '\x7b'

/-- The character `\x7d` (closing curly brace). -/
def rbrace : Char := '\x7d'

/-- Index of the first occurrence of `c`, mirroring where the leftmost regex
match can start. -/
def firstIdx (c : Char) : List Char → Option Nat
  | [] => none
  | x :: xs => if x = c then some 0 else (firstIdx c xs).map (· + 1)

/-- Index of the last occurrence of `c`, mirroring where the greedy `.*`
(with `re.S`, spanning newlines) ends the match. -/
def lastIdx (c : Char) : List Char → Option Nat
  | [] => none
  | x :: xs =>
      match lastIdx c xs with
      | some j => some (j + 1)
      | none => if x = c then some 0 else none

/-- Semantics of `re.search(r"\x7b.*\x7d", content, re.S)` followed by
`m.group(0)` (src/app.py line 210): the leftmost starting position of a match
is the first `\x7b` (any later `\x7b` sees a subset of the remaining text), and
the greedy `.*` backtracks to the last `\x7d` of the whole text.  The match
exists exactly when the first `\x7b` precedes the last `\x7d`. -/
def extractRegion (content : List Char) : Option (List Char) :=
  match firstIdx lbrace content, lastIdx rbrace content with
  | some i, some j => if i < j then some ((content.take (j + 1)).drop i) else none
  | _, _ => none

/-- Model of `_extract_json` (src/app.py lines 209-212): locate the regex match
`r"\x7b.*\x7d"` (DOTALL) in the raw completion text; raise
`ValueError("JSON not found in GPT response")` when there is none, otherwise
`json.loads` the matched substring.  `json.loads` is the external collaborator
`jsonLoads`; a parse failure is its own `Except.error` message. -/
def _extract_json {J : Type} (jsonLoads : String → Except String J) (content : String) :
    Except String J :=
  match extractRegion content.data with
  | none => Except.error "JSON not found in GPT response"
  | some s => jsonLoads (String.mk s)

/-- The two fixed system prompts of src/app.py (lines 67-121).  Their wording
is instruction text for the external completion service; only their identity
drives program branching, so they are modelled as a closed variant. -/
inductive Prompt where
  | SUMMARY_PROMPT
  | ORIGINAL_PROMPT
deriving DecidableEq

/-- Line 170 of src/app.py:
`prompt = SUMMARY_PROMPT if mode == "summary" else ORIGINAL_PROMPT`. -/
def selectPrompt (mode : String) : Prompt :=
  if mode = "summary" then Prompt.SUMMARY_PROMPT else Prompt.ORIGINAL_PROMPT

/-- An uploaded file as seen by the handler: only its filename drives
branching (`if audio_file and audio_file.filename:`); its bytes go straight to
the upstream transcription call. -/
structure AudioFile where
  filename : String
deriving DecidableEq

/-- The form fields of a `/transcribe_and_summarize` request.  `none` models
an absent field (`request.form.get` default applies). -/
structure TSRequest where
  mode : Option String
  target_lang : Option String
  text_input : Option String
  audio_file : Option AudioFile

/-- External collaborators of `/transcribe_and_summarize`: the Whisper
transcription call, the chat-completion call (keyed by the selected prompt and
the payload fields `text` and `target_lang`), and `json.loads`.  An
`Except.error` carries `str(e)` of the raised exception. -/
structure Upstream (J : Type) where
  transcribe : AudioFile → Except String String
  complete : Prompt → String → String → Except String String
  jsonLoads : String → Except String J

/-- A JSON response body: either the parsed contract data or an
`{"error": msg}` object. -/
inductive Body (J : Type) where
  | data (d : J)
  | error (msg : String)
deriving DecidableEq

/-- An HTTP response as produced by `jsonify(...), status`. -/
structure HttpResponse (J : Type) where
  status : Nat
  body : Body J
deriving DecidableEq

/-- Trace of upstream calls made while handling one
`/transcribe_and_summarize` request: how many transcription calls ran, and the
(prompt, text, target_lang) arguments of each completion call. -/
structure TSTrace where
  transcriptions : Nat
  completions : List (Prompt × String × String)
deriving DecidableEq

/-- The GPT block of src/app.py (lines 169-186): one completion call with the
selected prompt; on success the raw content goes through `_extract_json` and
the parsed data is returned with status 200; any exception `e` (upstream
failure, missing JSON, parse failure) is answered as
`jsonify({"error": str(e)}), 500`. -/
def gptStep {J : Type} (up : Upstream J) (prompt : Prompt)
    (user_text target_lang : String) : HttpResponse J :=
  match up.complete prompt user_text target_lang with
  | Except.error e => ⟨500, Body.error e⟩
  | Except.ok content =>
      match _extract_json up.jsonLoads content with
      | Except.error e => ⟨500, Body.error e⟩
      | Except.ok d => ⟨200, Body.data d⟩

/-- Shared tail of the handler (src/app.py lines 164-186): reject an empty
resolved user text with `400 {"error": "No input"}` (making no completion
call), otherwise run the GPT block once, recording the completion call.
`tCalls` is the number of transcription calls already made. -/
def afterInput {J : Type} (up : Upstream J) (mode target_lang user_text : String)
    (tCalls : Nat) : HttpResponse J × TSTrace :=
  if user_text = "" then (⟨400, Body.error "No input"⟩, ⟨tCalls, []⟩)
  else
    (gptStep up (selectPrompt mode) user_text target_lang,
     ⟨tCalls, [(selectPrompt mode, user_text, target_lang)]⟩)

/-- The `/transcribe_and_summarize` handler (src/app.py lines 144-186).
Form parsing: `mode = form.get("mode", "summary")`,
`target_lang = form.get("target_lang", "").strip()`,
`text_input = form.get("text_input", "").strip()`.
If an audio file with a non-empty filename is present, one transcription call
is made: an exception is answered as
`500 {"error": "Whisper error: " + str(e)}`, a success yields
`user_text = transcript.strip()` (the typed `text_input` is ignored).
Otherwise `user_text = text_input`. -/
def transcribe_and_summarize {J : Type} (up : Upstream J) (req : TSRequest) :
    HttpResponse J × TSTrace :=
  let mode := req.mode.getD "summary"
  let target_lang := pyStrip (req.target_lang.getD "")
  let text_input := pyStrip (req.text_input.getD "")
  match req.audio_file with
  | some f =>
      if f.filename = "" then afterInput up mode target_lang text_input 0
      else
        match up.transcribe f with
        | Except.error e => (⟨500, Body.error ("Whisper error: " ++ e)⟩, ⟨1, []⟩)
        | Except.ok t => afterInput up mode target_lang (pyStrip t) 1
  | none => afterInput up mode target_lang text_input 0

/-- Outcome of a Python call that may raise: a value, a `TypeError`, or any
other exception carrying `str(e)`. -/
inductive PyResult (α : Type) where
  | ok (a : α)
  | typeError
  | exn (msg : String)

/-- External collaborators of `/tts`: the full-parameter
`client.audio.speech.create(model, voice, input, format)` call and the
reduced-parameter fallback `client.audio.speech.create(model, voice, input)`
(src/app.py lines 195-202), each given the validated text and returning audio
bytes or raising. -/
structure TtsUpstream where
  fullCall : String → PyResult (List Nat)
  reducedCall : String → PyResult (List Nat)

/-- State of the scratch temporary file created by
`tempfile.NamedTemporaryFile(delete=False, suffix=".mp3")` (src/app.py
line 204): the bytes written to it, whether `tmp.flush()` ran, and whether the
handler ever deleted it. -/
structure TempFile where
  written : List Nat
  flushed : Bool
  deleted : Bool
deriving DecidableEq

/-- Body of a `/tts` response: a JSON error object or
`send_file(tmp.name, mimetype="audio/mpeg")` of the staged temporary file. -/
inductive TtsBody where
  | error (msg : String)
  | file (f : TempFile)
deriving DecidableEq

/-- Outcome of one `/tts` request: an HTTP response, or an exception escaping
the handler (the handler catches only `TypeError` around the first synthesis
call, so every other exception propagates unhandled).  The flag records
whether the escaping exception is a `TypeError`. -/
inductive TtsOutcome where
  | response (status : Nat) (body : TtsBody)
  | unhandled (isTypeError : Bool) (msg : String)
deriving DecidableEq

/-- Trace of one `/tts` request: number of full-parameter and
reduced-parameter synthesis calls, and the temporary file staged on success
(`none` when the handler never reached the temp-file code). -/
structure TtsTrace where
  fullCalls : Nat
  reducedCalls : Nat
  tempFile : Option TempFile
deriving DecidableEq

/-- The `/tts` handler (src/app.py lines 189-206).
`text = (request.json.get("text") or "").strip()`; empty text is rejected as
`400 {"error": "empty text"}` and text longer than 4000 characters as
`400 {"error": "too long"}`, both before any synthesis call.  The
full-parameter synthesis call runs inside `try/except TypeError`; on
`TypeError` the reduced-parameter call runs once, outside any handler, so its
failure — and any non-`TypeError` failure of the first call — propagates out
of the handler.  On success the bytes are written to a `delete=False`
temporary file, flushed, and the file is handed to `send_file`; the handler
never deletes it. -/
def tts (up : TtsUpstream) (textField : Option String) : TtsOutcome × TtsTrace :=
  let text := pyStrip (textField.getD "")
  if text = "" then (TtsOutcome.response 400 (TtsBody.error "empty text"), ⟨0, 0, none⟩)
  else if text.length > 4000 then
    (TtsOutcome.response 400 (TtsBody.error "too long"), ⟨0, 0, none⟩)
  else
    match up.fullCall text with
    | PyResult.ok audio =>
        (TtsOutcome.response 200 (TtsBody.file ⟨audio, true, false⟩),
         ⟨1, 0, some ⟨audio, true, false⟩⟩)
    | PyResult.typeError =>
        match up.reducedCall text with
        | PyResult.ok audio =>
            (TtsOutcome.response 200 (TtsBody.file ⟨audio, true, false⟩),
             ⟨1, 1, some ⟨audio, true, false⟩⟩)
        | PyResult.typeError => (TtsOutcome.unhandled true "", ⟨1, 1, none⟩)
        | PyResult.exn m => (TtsOutcome.unhandled false m, ⟨1, 1, none⟩)
    | PyResult.exn m => (TtsOutcome.unhandled false m, ⟨1, 0, none⟩)

/-!
Helper lemmas.  `firstIdx`/`lastIdx` are characterized against positional
`List.get?` facts, so the claim theorems about `_extract_json` can be stated
purely in terms of character positions rather than the model's own search
functions; `stripList_pad` relates `pyStrip` to whitespace padding.
-/


theorem firstIdx_sound {c : Char} :
    ∀ {l : List Char} {i : Nat}, firstIdx c l = some i → l.get? i = some c := by
  intro l
  induction l with
  | nil => intro i h; simp [firstIdx] at h
  | cons x xs ih =>
      intro i h
      by_cases hx : x = c
      · simp only [firstIdx, if_pos hx] at h
        cases h
        simp [hx]
      · simp only [firstIdx, if_neg hx] at h
        cases hfx : firstIdx c xs with
        | none => rw [hfx] at h; simp at h
        | some n =>
            rw [hfx] at h
            simp at h
            subst h
            simpa using ih hfx

theorem firstIdx_complete {c : Char} :
    ∀ {l : List Char} {i : Nat}, l.get? i = some c →
      (∀ k, k < i → l.get? k ≠ some c) → firstIdx c l = some i := by
  intro l
  induction l with
  | nil => intro i h _; simp at h
  | cons x xs ih =>
      intro i h hfirst
      cases i with
      | zero =>
          simp only [List.get?_cons_zero, Option.some.injEq] at h
          simp [firstIdx, h]
      | succ n =>
          have hx : ¬ (x = c) := by
            intro hxc
            exact hfirst 0 (Nat.succ_pos n) (by simp [hxc])
          have h' : xs.get? n = some c := by simpa using h
          have hfirst' : ∀ k, k < n → xs.get? k ≠ some c := by
            intro k hk hkc
            exact hfirst (k + 1) (Nat.succ_lt_succ hk) (by simpa using hkc)
          simp [firstIdx, if_neg hx, ih h' hfirst']

theorem lastIdx_sound {c : Char} :
    ∀ {l : List Char} {j : Nat}, lastIdx c l = some j → l.get? j = some c := by
  intro l
  induction l with
  | nil => intro j h; simp [lastIdx] at h
  | cons x xs ih =>
      intro j h
      simp only [lastIdx] at h
      cases hfx : lastIdx c xs with
      | some n =>
          rw [hfx] at h
          cases h
          simpa using ih hfx
      | none =>
          rw [hfx] at h
          by_cases hx : x = c
          · rw [if_pos hx] at h
            cases h
            simp [hx]
          · rw [if_neg hx] at h
            simp at h

theorem lastIdx_complete {c : Char} :
    ∀ {l : List Char} {j : Nat}, l.get? j = some c →
      (∀ k, k < l.length → j < k → l.get? k ≠ some c) → lastIdx c l = some j := by
  intro l
  induction l with
  | nil => intro j h _; simp at h
  | cons x xs ih =>
      intro j h hlast
      cases j with
      | zero =>
          simp only [List.get?_cons_zero, Option.some.injEq] at h
          have hnone : lastIdx c xs = none := by
            cases hfx : lastIdx c xs with
            | none => rfl
            | some n =>
                exfalso
                have hn : xs.get? n = some c := lastIdx_sound hfx
                have hlt : n < xs.length := (List.get?_eq_some.mp hn).1
                exact hlast (n + 1) (by simpa using Nat.succ_lt_succ hlt)
                  (Nat.succ_pos n) (by simpa using hn)
          simp [lastIdx, hnone, h]
      | succ n =>
          have h' : xs.get? n = some c := by simpa using h
          have hlast' : ∀ k, k < xs.length → n < k → xs.get? k ≠ some c := by
            intro k hk hnk hkc
            exact hlast (k + 1) (by simpa using Nat.succ_lt_succ hk)
              (Nat.succ_lt_succ hnk) (by simpa using hkc)
          simp [lastIdx, ih h' hlast']

theorem extractRegion_none {l : List Char}
    (h : ∀ i j, i < j → ¬(l.get? i = some lbrace ∧ l.get? j = some rbrace)) :
    extractRegion l = none := by
  unfold extractRegion
  cases hf : firstIdx lbrace l with
  | none => rfl
  | some i =>
      cases hl : lastIdx rbrace l with
      | none => rfl
      | some j =>
          simp only
          rw [if_neg]
          intro hij
          exact h i j hij ⟨firstIdx_sound hf, lastIdx_sound hl⟩

theorem dropWhile_all {p : Char → Bool} :
    ∀ {pre : List Char}, (∀ c ∈ pre, p c = true) →
      ∀ (x : List Char), (pre ++ x).dropWhile p = x.dropWhile p := by
  intro pre
  induction pre with
  | nil => intro _ x; rfl
  | cons a t ih =>
      intro h x
      have ha : p a = true := h a (by simp)
      simp only [List.cons_append, List.dropWhile_cons, ha, if_pos]
      exact ih (fun c hc => h c (by simp [hc])) x

theorem all_dropWhile_nil {p : Char → Bool} {l : List Char}
    (h : ∀ c ∈ l, p c = true) : l.dropWhile p = [] :=
  List.dropWhile_eq_nil_iff.mpr h

theorem stripList_pad {pre post t : List Char}
    (hpre : ∀ c ∈ pre, isPySpace c = true) (hpost : ∀ c ∈ post, isPySpace c = true) :
    stripList (pre ++ t ++ post) = stripList t := by
  unfold stripList
  rw [List.append_assoc, dropWhile_all hpre]
  cases hdt : t.dropWhile isPySpace with
  | nil =>
      have h2 : (t ++ post).dropWhile isPySpace = [] := by
        rw [List.dropWhile_append, hdt]
        simp [all_dropWhile_nil hpost]
      rw [h2]
  | cons a rest =>
      have h2 : (t ++ post).dropWhile isPySpace = (a :: rest) ++ post := by
        rw [List.dropWhile_append, hdt]
        simp
      rw [h2]
      simp only [List.reverse_append]
      rw [dropWhile_all (by intro c hc; exact hpost c (by simpa using hc))]

/-!
Concrete collaborator instances used by closed witnesses and counterexamples.
-/

/-- Concrete upstream whose transcription returns a padded transcript, whose
completion returns a brace-delimited payload, and whose JSON parser accepts
everything. -/
def upNat : Upstream Nat :=
  ⟨fun _ => Except.ok " hi ", fun _ _ _ => Except.ok "pre \x7ba\x7d post",
   fun _ => Except.ok 7⟩

/-- Concrete upstream whose completion returns text with no brace pair. -/
def upNoJson : Upstream Nat :=
  ⟨fun _ => Except.error "x", fun _ _ _ => Except.ok "no json here",
   fun _ => Except.ok 0⟩

/-- Concrete upstream whose transcription call raises. -/
def upWhisperErr : Upstream Nat :=
  ⟨fun _ => Except.error "timeout", fun _ _ _ => Except.ok "",
   fun _ => Except.ok 0⟩

/-- Concrete synthesis collaborator that succeeds on the full-parameter call. -/
def ttsUpOk : TtsUpstream :=
  ⟨fun _ => PyResult.ok [1, 2, 3], fun _ => PyResult.ok [4, 5]⟩

/-- Concrete synthesis collaborator whose full-parameter call raises a
non-`TypeError` exception. -/
def ttsUpBoom : TtsUpstream :=
  ⟨fun _ => PyResult.exn "boom", fun _ => PyResult.ok [4, 5]⟩

/-- Concrete synthesis collaborator whose full-parameter call raises
`TypeError`, forcing the reduced-parameter fallback. -/
def ttsUpType : TtsUpstream :=
  ⟨fun _ => PyResult.typeError, fun _ => PyResult.ok [4, 5]⟩

/-- Every completion call recorded by `afterInput` carries the prompt selected
from the mode string. -/
theorem afterInput_completions {J : Type} (up : Upstream J)
    (mode target_lang user_text : String) (tCalls : Nat)
    (c : Prompt × String × String)
    (hc : c ∈ (afterInput up mode target_lang user_text tCalls).2.completions) :
    c.1 = selectPrompt mode := by
  unfold afterInput at hc
  by_cases h : user_text = ""
  · rw [if_pos h] at hc
    simp at hc
  · rw [if_neg h] at hc
    simp at hc
    rw [hc]

/-- C1 (amended): the Policy Selector sends the recognized mode string
`"summary"` — and an absent mode field, whose `form.get` default is
`"summary"` — to the Summarize prompt, and **every other** mode value,
`"original"` but also any unrecognized string such as `"ORIGINAL"` or `"foo"`,
to the Verbatim (`ORIGINAL_PROMPT`) policy; unrecognized mode values default
to Verbatim, not Summarize.  Moreover every completion call issued by
`/transcribe_and_summarize` uses exactly the prompt selected from the
request's mode field. -/
theorem policy_selector_amended :
    selectPrompt "summary" = Prompt.SUMMARY_PROMPT ∧
    (∀ m : String, m ≠ "summary" → selectPrompt m = Prompt.ORIGINAL_PROMPT) ∧
    (∀ (J : Type) (up : Upstream J) (req : TSRequest)
        (c : Prompt × String × String),
        c ∈ (transcribe_and_summarize up req).2.completions →
        c.1 = selectPrompt (req.mode.getD "summary")) := by
  refine ⟨rfl, ?_, ?_⟩
  · intro m hm
    simp [selectPrompt, hm]
  · intro J up req c hc
    cases hreq : req.audio_file with
    | none =>
        simp only [transcribe_and_summarize, hreq] at hc
        exact afterInput_completions _ _ _ _ _ _ hc
    | some f =>
        simp only [transcribe_and_summarize, hreq] at hc
        by_cases hname : f.filename = ""
        · rw [if_pos hname] at hc
          exact afterInput_completions _ _ _ _ _ _ hc
        · rw [if_neg hname] at hc
          cases ht : up.transcribe f with
          | error e => rw [ht] at hc; simp at hc
          | ok t =>
              rw [ht] at hc
              exact afterInput_completions _ _ _ _ _ _ hc

/-- C1 counterexample: a request whose mode is the unrecognized string
`"foo"` makes the handler issue its completion call with the Verbatim
`ORIGINAL_PROMPT`, not the Summarize prompt the claim predicts. -/
theorem policy_selector_counterexample :
    (transcribe_and_summarize upNat
        (TSRequest.mk (some "foo") none (some "hello") none)).2.completions =
      [(Prompt.ORIGINAL_PROMPT, "hello", "")] ∧
    Prompt.ORIGINAL_PROMPT ≠ Prompt.SUMMARY_PROMPT := by
  constructor
  · rfl
  · decide

/-- Witness for `policy_selector_amended` at the concrete unrecognized mode
string `"ORIGINAL"`. -/
theorem policy_selector_witness :
    selectPrompt "ORIGINAL" = Prompt.ORIGINAL_PROMPT :=
  policy_selector_amended.2.1 "ORIGINAL" (by decide)

/-- C2: for raw completion text containing a `\x7b` at position `i` that is the
first opening brace and a `\x7d` at position `j` that is the last closing
brace, with `i < j`, `_extract_json` JSON-parses exactly the substring from
position `i` through position `j` (greedy, spanning newlines).  In particular
a valid JSON object surrounded by prose with no further braces is parsed
unchanged. -/
theorem extract_json_slice {J : Type} (loads : String → Except String J)
    (content : List Char) (i j : Nat)
    (hi : content.get? i = some lbrace)
    (hfirst : ∀ k, k < i → content.get? k ≠ some lbrace)
    (hj : content.get? j = some rbrace)
    (hlast : ∀ k, k < content.length → j < k → content.get? k ≠ some rbrace)
    (hij : i < j) :
    _extract_json loads (String.mk content) =
      loads (String.mk ((content.take (j + 1)).drop i)) := by
  have h1 : firstIdx lbrace content = some i := firstIdx_complete hi hfirst
  have h2 : lastIdx rbrace content = some j := lastIdx_complete hj hlast
  unfold _extract_json
  rw [show (String.mk content).data = content from rfl]
  unfold extractRegion
  rw [h1, h2]
  simp [if_pos hij]

/-- Witness for `extract_json_slice`: prose around a brace-delimited payload
is discarded and exactly the payload is handed to the JSON parser. -/
theorem extract_json_slice_witness :
    _extract_json (fun s => Except.ok s)
        (String.mk ['a', ' ', '\x7b', 'b', '\x7d', ' ', 'c']) =
      Except.ok "\x7bb\x7d" :=
  extract_json_slice (fun s => Except.ok s)
    ['a', ' ', '\x7b', 'b', '\x7d', ' ', 'c'] 2 4
    (by decide) (by decide) (by decide) (by decide) (by decide)

/-- C3: when the completion call succeeds but its text contains no
`\x7b`-before-`\x7d` pair, `_extract_json` fails with
"JSON not found in GPT response" and the handler answers 500 with exactly that
message as the JSON error body. -/
theorem contract_extraction_failure_500 {J : Type} (up : Upstream J)
    (req : TSRequest) (content : String)
    (haudio : req.audio_file = none)
    (htext : pyStrip (req.text_input.getD "") ≠ "")
    (hcomp : up.complete (selectPrompt (req.mode.getD "summary"))
        (pyStrip (req.text_input.getD "")) (pyStrip (req.target_lang.getD "")) =
      Except.ok content)
    (hnopair : ∀ i, i < content.data.length → ∀ j, j < content.data.length →
        i < j →
        ¬(content.data.get? i = some lbrace ∧ content.data.get? j = some rbrace)) :
    (transcribe_and_summarize up req).1 =
      ⟨500, Body.error "JSON not found in GPT response"⟩ := by
  have hres : extractRegion content.data = none := by
    apply extractRegion_none
    intro i j hij hpair
    have hilt : i < content.data.length := (List.get?_eq_some.mp hpair.1).1
    have hjlt : j < content.data.length := (List.get?_eq_some.mp hpair.2).1
    exact hnopair i hilt j hjlt hij hpair
  simp only [transcribe_and_summarize, haudio]
  unfold afterInput
  rw [if_neg htext]
  simp only [gptStep, hcomp, _extract_json, hres]

/-- Witness for `contract_extraction_failure_500`: a completion answering
plain prose with no braces is surfaced as the 500 "JSON not found in GPT
response" error. -/
theorem contract_extraction_failure_500_witness :
    (transcribe_and_summarize upNoJson (TSRequest.mk none none (some "hi") none)).1 =
      ⟨500, Body.error "JSON not found in GPT response"⟩ :=
  contract_extraction_failure_500 upNoJson
    (TSRequest.mk none none (some "hi") none) "no json here"
    rfl (by decide) rfl (by decide)

/-- C4 (amended): the `/tts` validation operates on the whitespace-stripped
text, not the supplied text: if the stripped text is empty (so also for
whitespace-only input) the handler answers `400 {"error": "empty text"}`; if
the stripped text is non-empty and longer than 4000 characters it answers
`400 {"error": "too long"}`; both rejections happen before any outbound
synthesis call (the trace records zero calls); and when the stripped length is
between 1 and 4000 neither rejection fires. -/
theorem tts_validation_amended (up : TtsUpstream) (o : Option String) :
    (pyStrip (o.getD "") = "" →
      tts up o = (TtsOutcome.response 400 (TtsBody.error "empty text"), ⟨0, 0, none⟩)) ∧
    (pyStrip (o.getD "") ≠ "" → (pyStrip (o.getD "")).length > 4000 →
      tts up o = (TtsOutcome.response 400 (TtsBody.error "too long"), ⟨0, 0, none⟩)) ∧
    (pyStrip (o.getD "") ≠ "" → (pyStrip (o.getD "")).length ≤ 4000 →
      (tts up o).1 ≠ TtsOutcome.response 400 (TtsBody.error "empty text") ∧
      (tts up o).1 ≠ TtsOutcome.response 400 (TtsBody.error "too long")) := by
  refine ⟨?_, ?_, ?_⟩
  · intro h
    simp [tts, h]
  · intro h1 h2
    simp [tts, h1, h2]
  · intro h1 h2
    have h3 : ¬ (pyStrip (o.getD "")).length > 4000 := by omega
    simp only [tts, if_neg h1, if_neg h3]
    cases up.fullCall (pyStrip (o.getD "")) with
    | ok audio => simp
    | typeError =>
        cases up.reducedCall (pyStrip (o.getD "")) with
        | ok audio => simp
        | typeError => simp
        | exn m => simp
    | exn m => simp

/-- C4 counterexample: the request text `" "` (one space) has length 1, so
the claim predicts that neither rejection fires; the handler strips it first
and rejects it as `400 {"error": "empty text"}`. -/
theorem tts_validation_counterexample :
    (tts ttsUpOk (some " ")).1 = TtsOutcome.response 400 (TtsBody.error "empty text") ∧
    (" " : String).length = 1 := by
  constructor
  · rfl
  · rfl

/-- Witness for `tts_validation_amended` at the concrete empty text. -/
theorem tts_validation_witness :
    tts ttsUpOk (some "") =
      (TtsOutcome.response 400 (TtsBody.error "empty text"), ⟨0, 0, none⟩) :=
  (tts_validation_amended ttsUpOk (some "")).1 rfl

/-- C5: a `/transcribe_and_summarize` request with no usable audio file
(absent, or carrying an empty filename) and a `text_input` that strips to
empty is answered `400 {"error": "No input"}`, with no transcription call and
no completion call recorded. -/
theorem no_input_400 {J : Type} (up : Upstream J) (req : TSRequest)
    (haudio : req.audio_file = none ∨
      ∃ f, req.audio_file = some f ∧ f.filename = "")
    (htext : pyStrip (req.text_input.getD "") = "") :
    transcribe_and_summarize up req = (⟨400, Body.error "No input"⟩, ⟨0, []⟩) := by
  rcases haudio with h | ⟨f, hf, hname⟩
  · simp [transcribe_and_summarize, h, afterInput, htext]
  · simp [transcribe_and_summarize, hf, hname, afterInput, htext]

/-- Witness for `no_input_400` at the concrete request with no fields. -/
theorem no_input_400_witness :
    transcribe_and_summarize upNat (TSRequest.mk none none none none) =
      (⟨400, Body.error "No input"⟩, ⟨0, []⟩) :=
  no_input_400 upNat (TSRequest.mk none none none none) (Or.inl rfl) rfl

/-- C10: the `/tts` text is stripped of leading and trailing whitespace
before both validation checks: padding a text with whitespace on either side
leaves the handler's behaviour unchanged (so surrounding whitespace never
counts toward the 4000-character ceiling), a text that strips to empty —
in particular a whitespace-only body — is rejected as
`400 {"error": "empty text"}`, and the ceiling fires exactly on the stripped
length. -/
theorem tts_strip_validation (up : TtsUpstream) (t : String) (pre post : List Char)
    (hpre : pre.all isPySpace = true) (hpost : post.all isPySpace = true) :
    tts up (some (String.mk (pre ++ t.data ++ post))) = tts up (some t) ∧
    (pyStrip t = "" →
      (tts up (some t)).1 = TtsOutcome.response 400 (TtsBody.error "empty text")) ∧
    ((pyStrip t).length > 4000 →
      (tts up (some t)).1 = TtsOutcome.response 400 (TtsBody.error "too long")) := by
  refine ⟨?_, ?_, ?_⟩
  · have hps : pyStrip (String.mk (pre ++ t.data ++ post)) = pyStrip t := by
      unfold pyStrip
      rw [show (String.mk (pre ++ t.data ++ post)).data = pre ++ t.data ++ post from rfl]
      exact congrArg String.mk
        (stripList_pad (List.all_eq_true.mp hpre) (List.all_eq_true.mp hpost))
    simp only [tts, Option.getD_some]
    rw [hps]
  · intro h
    simp [tts, h]
  · intro h
    have hne : pyStrip t ≠ "" := by
      intro h0
      rw [h0] at h
      simp at h
    simp [tts, hne, h]

/-- Witness for `tts_strip_validation`: one space before and a space-tab pair
after the text leave the `/tts` outcome unchanged. -/
theorem tts_strip_validation_witness :
    tts ttsUpOk (some (String.mk ([' '] ++ "hi".data ++ [' ', '\t']))) =
      tts ttsUpOk (some "hi") :=
  (tts_strip_validation ttsUpOk "hi" [' '] [' ', '\t'] (by decide) (by decide)).1

/-- C6 (amended): when the full-parameter synthesis call raises `TypeError`,
exactly one reduced-parameter fallback call is made (one full call, one
reduced call recorded); but a synthesis failure for any other reason is
**not** mapped to an HTTP 500 JSON body — the `/tts` handler catches only
`TypeError`, so the exception propagates out of the handler unhandled, and the
same holds when the fallback call itself fails. -/
theorem tts_fallback_amended (up : TtsUpstream) (o : Option String)
    (h1 : pyStrip (o.getD "") ≠ "") (h2 : (pyStrip (o.getD "")).length ≤ 4000) :
    (up.fullCall (pyStrip (o.getD "")) = PyResult.typeError →
      (tts up o).2.fullCalls = 1 ∧ (tts up o).2.reducedCalls = 1) ∧
    (∀ m, up.fullCall (pyStrip (o.getD "")) = PyResult.exn m →
      tts up o = (TtsOutcome.unhandled false m, ⟨1, 0, none⟩)) ∧
    (∀ m, up.fullCall (pyStrip (o.getD "")) = PyResult.typeError →
      up.reducedCall (pyStrip (o.getD "")) = PyResult.exn m →
      (tts up o).1 = TtsOutcome.unhandled false m) := by
  have h3 : ¬ (pyStrip (o.getD "")).length > 4000 := by omega
  refine ⟨?_, ?_, ?_⟩
  · intro hf
    simp only [tts, if_neg h1, if_neg h3, hf]
    cases up.reducedCall (pyStrip (o.getD "")) with
    | ok audio => exact ⟨rfl, rfl⟩
    | typeError => exact ⟨rfl, rfl⟩
    | exn m => exact ⟨rfl, rfl⟩
  · intro m hf
    simp [tts, if_neg h1, if_neg h3, hf]
  · intro m hf hr
    simp [tts, if_neg h1, if_neg h3, hf, hr]

/-- C6 counterexample: a non-`TypeError` synthesis failure (`"boom"`) escapes
the handler as an unhandled exception; it is not the
`500 {"error": "boom"}` JSON response the claim predicts. -/
theorem tts_fallback_counterexample :
    (tts ttsUpBoom (some "hello")).1 = TtsOutcome.unhandled false "boom" ∧
    (tts ttsUpBoom (some "hello")).1 ≠ TtsOutcome.response 500 (TtsBody.error "boom") := by
  decide

/-- Witness for `tts_fallback_amended`: a `TypeError` on the full-parameter
call leads to exactly one fallback call. -/
theorem tts_fallback_witness :
    (tts ttsUpType (some "hi")).2.fullCalls = 1 ∧
    (tts ttsUpType (some "hi")).2.reducedCalls = 1 :=
  (tts_fallback_amended ttsUpType (some "hi") (by decide) (by decide)).1 rfl

/-- C7: a `/transcribe_and_summarize` request carrying an audio file with a
non-empty filename makes exactly one upstream transcription call (no retries,
on every outcome), and any exception of that call is reported once as an HTTP
500 JSON body `"Whisper error: " ++ e` containing the upstream message `e`
verbatim — no stack trace, no internal identifiers. -/
theorem whisper_single_call_500 {J : Type} (up : Upstream J) (req : TSRequest)
    (f : AudioFile) (hf : req.audio_file = some f) (hname : f.filename ≠ "") :
    (transcribe_and_summarize up req).2.transcriptions = 1 ∧
    (∀ e, up.transcribe f = Except.error e →
      (transcribe_and_summarize up req).1 =
        ⟨500, Body.error ("Whisper error: " ++ e)⟩) := by
  constructor
  · simp only [transcribe_and_summarize, hf, if_neg hname]
    cases ht : up.transcribe f with
    | error e => rfl
    | ok t =>
        unfold afterInput
        by_cases h : pyStrip t = "" <;> simp [h]
  · intro e he
    simp [transcribe_and_summarize, hf, hname, he]

/-- Witness for `whisper_single_call_500`: an upstream `"timeout"` failure
becomes a 500 with body `"Whisper error: timeout"`. -/
theorem whisper_single_call_500_witness :
    (transcribe_and_summarize upWhisperErr
        (TSRequest.mk none none none (some ⟨"a.webm"⟩))).1 =
      ⟨500, Body.error ("Whisper error: " ++ "timeout")⟩ :=
  (whisper_single_call_500 upWhisperErr
      (TSRequest.mk none none none (some ⟨"a.webm"⟩)) ⟨"a.webm"⟩ rfl
      (by decide)).2 "timeout" rfl

/-- C8 (amended): on every successful `/tts` request — full-parameter call or
reduced-parameter fallback — the synthesized bytes are fully written to the
scratch temporary file and flushed before the file is handed to the response,
but the temporary file (created with `delete=False`) is **not** cleaned up by
the handler: it remains undeleted after normal completion. -/
theorem tts_tempfile_amended (up : TtsUpstream) (o : Option String)
    (audio : List Nat)
    (h1 : pyStrip (o.getD "") ≠ "") (h2 : (pyStrip (o.getD "")).length ≤ 4000) :
    (up.fullCall (pyStrip (o.getD "")) = PyResult.ok audio →
      tts up o = (TtsOutcome.response 200 (TtsBody.file ⟨audio, true, false⟩),
        ⟨1, 0, some ⟨audio, true, false⟩⟩)) ∧
    (up.fullCall (pyStrip (o.getD "")) = PyResult.typeError →
      up.reducedCall (pyStrip (o.getD "")) = PyResult.ok audio →
      tts up o = (TtsOutcome.response 200 (TtsBody.file ⟨audio, true, false⟩),
        ⟨1, 1, some ⟨audio, true, false⟩⟩)) := by
  have h3 : ¬ (pyStrip (o.getD "")).length > 4000 := by omega
  constructor
  · intro hfull
    simp [tts, if_neg h1, if_neg h3, hfull]
  · intro hfull hred
    simp [tts, if_neg h1, if_neg h3, hfull, hred]

/-- C8 counterexample: a successful `/tts` run stages its audio in a
temporary file whose `deleted` flag is still `false` when the handler
finishes — the handler never cleans it up, contrary to the claim. -/
theorem tts_tempfile_counterexample :
    (tts ttsUpOk (some "hello")).2.tempFile = some ⟨[1, 2, 3], true, false⟩ ∧
    (TempFile.mk [1, 2, 3] true false).deleted = false := by
  decide

/-- Witness for `tts_tempfile_amended` on the full-parameter success path. -/
theorem tts_tempfile_witness :
    tts ttsUpOk (some "hi") =
      (TtsOutcome.response 200 (TtsBody.file ⟨[1, 2, 3], true, false⟩),
       ⟨1, 0, some ⟨[1, 2, 3], true, false⟩⟩) :=
  (tts_tempfile_amended ttsUpOk (some "hi") [1, 2, 3] (by decide) (by decide)).1 rfl

/-- C9: when a request supplies both a `text_input` and an audio file (with a
non-empty filename), the audio silently wins: the handler's outcome is
independent of the `text_input` field, and the user text handed to the
completion call is the stripped transcription result. -/
theorem audio_precedence {J : Type} (up : Upstream J) (req : TSRequest)
    (f : AudioFile) (t : String)
    (hf : req.audio_file = some f) (hname : f.filename ≠ "")
    (ht : up.transcribe f = Except.ok t) :
    (∀ s : Option String,
      transcribe_and_summarize up req =
        transcribe_and_summarize up
          (TSRequest.mk req.mode req.target_lang s req.audio_file)) ∧
    (pyStrip t ≠ "" →
      (transcribe_and_summarize up req).2.completions =
        [(selectPrompt (req.mode.getD "summary"), pyStrip t,
          pyStrip (req.target_lang.getD ""))]) := by
  constructor
  · intro s
    simp [transcribe_and_summarize, hf, hname, ht]
  · intro hts
    simp [transcribe_and_summarize, hf, hname, ht, afterInput, hts]

/-- Witness for `audio_precedence`: with both a typed text and an audio file
present, the completion call uses the stripped transcript `"hi"`, not the
typed `"typed text"`. -/
theorem audio_precedence_witness :
    (transcribe_and_summarize upNat
        (TSRequest.mk none none (some "typed text") (some ⟨"a.webm"⟩))).2.completions =
      [(Prompt.SUMMARY_PROMPT, "hi", "")] :=
  (audio_precedence upNat
      (TSRequest.mk none none (some "typed text") (some ⟨"a.webm"⟩))
      ⟨"a.webm"⟩ " hi " rfl (by decide) rfl).2 (by decide)
